import Mathlib

set_option maxHeartbeats 1000000

/-!
Shallow embedding of socketio/engine/transports.py, the transport layer of
an engine.io style server.  Python object state is passed explicitly, side
effects (event emission, HTTP response completion, socket writes, listener
registration) are recorded in an effect list, and Python exceptions are
threaded as an optional error next to the state that had already been
mutated when the exception was raised.  The packet codec (Parser), the
Response class, the EventEmitter base and gevent are external
collaborators: calls into them are recorded as effects at the call
boundary.  Logger output is not modelled.
-/

namespace Transports

/-- Packet: a dict with a type field and an optional payload (spec section 3). -/
structure Packet where
  ptype : String
  payload : String := ""
  deriving Repr, DecidableEq

/-- Python exceptions that the embedded code can raise. -/
inductive PyError
  | attributeError (msg : String)
  | typeError (msg : String)
  | nameError (msg : String)
  deriving Repr, DecidableEq

/-- Observable side effects of the polling transport code.  Exchanges
(request/response pairs) are identified by natural numbers.  The packet
codec is external, so a call `self.write(Parser.encode_payload(ps, b))` is
recorded as `write ps b`: the packet list handed to the encoder together
with the supports_binary flag. -/
inductive Effect
  | errorEv (description : String)
  | endResponse (exchange : Nat) (status : Nat) (body : Option String)
  | registerPostEnd (exchange : Nat)
  | registerPreEnd (exchange : Nat)
  | drainEv
  | packetEv (p : Packet)
  | closeEv
  | closeInvoked
  | write (packets : List Packet) (supportsBinary : Bool)
  | abortReq (exchange : Nat)
  deriving Repr, DecidableEq

/-- State of a PollingTransport object (fields set in BaseTransport.__init__
and PollingTransport.__init__ that the embedded methods read or write).
`pollRequest` is `self.request` (the bound GET poll exchange),
`dataRequest` is `self.data_request`, `pollResponseIsSet` is
`self.request.response.is_set`, and `errorListeners` records whether a
listener is registered for the error event (read by `on_error`). -/
structure PollingState where
  readyState : String
  writable : Bool
  shouldClose : Bool
  supportsBinary : Bool
  pollRequest : Option Nat
  dataRequest : Option Nat
  pollResponseIsSet : Bool
  errorListeners : Bool
  deriving Repr, DecidableEq

/-- Result of running a polling-transport method: the object state after the
call, the effects emitted, and the Python exception propagated out of the
call, if any (the state changes made before the raise are kept, as in
Python). -/
structure POut where
  state : PollingState
  effects : List Effect
  exn : Option PyError
  deriving Repr, DecidableEq

/-- BaseTransport.on_error: emits the error event only when an error
listener is registered, otherwise the message is merely logged. -/
def BaseTransport.onError (s : PollingState) (msg : String) : List Effect :=
  if s.errorListeners then [Effect.errorEv msg] else []

/-- BaseTransport.on_close: unconditionally sets ready_state to closed and
emits the close event.  This implementation is shared by every transport
subclass; no guard checks whether the transport is already closed. -/
def BaseTransport.onClose (s : PollingState) : PollingState × List Effect :=
  ({ s with readyState := "closed" }, [Effect.closeEv])

/-- PollingTransport.send.  The source reads:
`if self.should_close: packets.push(...); ...` — Python lists have no
`push` method (the line is JavaScript), so when `should_close` is true the
call raises AttributeError before appending anything, before clearing the
flag and before writing.  Otherwise the packets are encoded as one payload
and handed to `self.write`, recorded as a `write` effect. -/
def PollingTransport.send (s : PollingState) (packets : List Packet) : POut :=
  if s.shouldClose then
    ⟨s, [], some (PyError.attributeError "list object has no attribute push")⟩
  else
    ⟨s, [Effect.write packets s.supportsBinary], none⟩

/-- PollingTransport.do_close: abort the bound data exchange if any; then
if writable, send a single close packet through the normal send path, else
set should_close so the next poll flush appends it. -/
def PollingTransport.doClose (s : PollingState) : POut :=
  let abortEffs : List Effect :=
    match s.dataRequest with
    | some r => [Effect.abortReq r]
    | none => []
  if s.writable then
    let o := PollingTransport.send s [{ ptype := "close" }]
    ⟨o.state, abortEffs ++ o.effects, o.exn⟩
  else
    ⟨{ s with shouldClose := true }, abortEffs, none⟩

/-- BaseTransport.close specialised to PollingTransport (so `do_close`
dispatches to PollingTransport.do_close).  Sets ready_state to closing,
ends the bound exchange response with 200/closed when it is not yet set,
then delegates to do_close.  When no exchange is bound, `self.request` is
None and the attribute access raises, with ready_state already moved to
closing.  The Response class is external: ending a response is recorded as
an effect and marks the response as set. -/
def PollingTransport.close (s : PollingState) : POut :=
  let s1 := { s with readyState := "closing" }
  match s1.pollRequest with
  | none => ⟨s1, [], some (PyError.attributeError "NoneType object has no attribute response")⟩
  | some r =>
    if s1.pollResponseIsSet then
      PollingTransport.doClose s1
    else
      let s2 := { s1 with pollResponseIsSet := true }
      let o := PollingTransport.doClose s2
      ⟨o.state, Effect.endResponse r 200 (some "closed") :: o.effects, o.exn⟩

/-- Second half of PollingTransport.on_poll_request, past the overlap
check: bind the poll exchange, register the post_end cleanup hook and the
pre_end writability hook on its response, set writable, emit drain, and if
should_close is pending trigger an empty send (which, in this code, raises
inside `send`, see `PollingTransport.send`). -/
def PollingTransport.bindPoll (s : PollingState) (req : Nat) : POut :=
  let s1 := { s with pollRequest := some req, writable := true }
  let effs := [Effect.registerPostEnd req, Effect.registerPreEnd req, Effect.drainEv]
  if s1.shouldClose then
    let o := PollingTransport.send s1 [{ ptype := "noop" }]
    ⟨o.state, effs ++ o.effects, o.exn⟩
  else
    ⟨s1, effs, none⟩

/-- PollingTransport.on_poll_request.  When a different poll exchange is
already bound this is the request-overlap branch: `on_error` is called and
then `self.request.response.end(500)` — note that `self.request` is the
exchange that was already bound, so the 500 terminates the existing
exchange response and the method returns without ever responding to the
new exchange `req`. -/
def PollingTransport.onPollRequest (s : PollingState) (req : Nat) : POut :=
  match s.pollRequest with
  | some r =>
    if r = req then
      PollingTransport.bindPoll s req
    else
      ⟨s, BaseTransport.onError s "overlap from client" ++ [Effect.endResponse r 500 none], none⟩
  | none => PollingTransport.bindPoll s req

/-- PollingTransport.on_data: iterate the packets decoded from the payload
in order; a packet of type close invokes `self.close()` and stops the
iteration; every other packet is routed to `on_packet`, which emits a
packet event.  The codec is external, so the function takes the decoded
packet list directly.  The `closeInvoked` effect marks the point where
`self.close()` is entered; the body of close is `PollingTransport.close`
and its effects follow the marker. -/
def PollingTransport.onDataLoop (s : PollingState) : List Packet → POut
  | [] => ⟨s, [], none⟩
  | p :: ps =>
    if p.ptype = "close" then
      let o := PollingTransport.close s
      ⟨o.state, Effect.closeInvoked :: o.effects, o.exn⟩
    else
      let o := PollingTransport.onDataLoop s ps
      ⟨o.state, Effect.packetEv p :: o.effects, o.exn⟩

/-- PollingTransport.on_data entry point over an already decoded payload. -/
def PollingTransport.onData (s : PollingState) (payload : List Packet) : POut :=
  PollingTransport.onDataLoop s payload

/-- Operations of this file that touch ready_state: the externally callable
close and on_close methods. -/
inductive Op
  | close
  | onClose
  deriving Repr, DecidableEq

/-- Apply one operation to a polling transport object, keeping the state
even when the call raised (the Python object survives the exception and the
caller can invoke the next operation on it). -/
def applyOp (s : PollingState) : Op → PollingState
  | Op.close => (PollingTransport.close s).state
  | Op.onClose => (BaseTransport.onClose s).1

/-- The trace of ready_state values observed after each operation of a
sequence. -/
def readyTrace (s : PollingState) : List Op → List String
  | [] => []
  | op :: ops =>
    let s1 := applyOp s op
    s1.readyState :: readyTrace s1 ops

/-- Numeric rank of the ready_state enum along opening, closing, closed. -/
def stateRank : String → Nat
  | "closing" => 1
  | "closed" => 2
  | _ => 0

/-- Operation sequences in which close is never invoked after an on_close:
once an on_close appears, every later operation is again on_close. -/
def noCloseAfterOnClose : List Op → Bool
  | [] => true
  | Op.close :: ops => noCloseAfterOnClose ops
  | Op.onClose :: ops => ops.all (fun o => o = Op.onClose)

/-- Construction arguments: `config.pop` of the supports_binary key with a
default of true; the remaining config keys are opaque pass-through. -/
structure TransportConfig where
  supportsBinary : Option Bool
  deriving Repr, DecidableEq

/-- BaseTransport.__init__ together with PollingTransport.__init__: the
poll request reference starts out as None, writable and should_close as
False, ready_state as opening. -/
def PollingTransport.init (cfg : TransportConfig) : PollingState :=
  { readyState := "opening"
    writable := false
    shouldClose := false
    supportsBinary := cfg.supportsBinary.getD true
    pollRequest := none
    dataRequest := none
    pollResponseIsSet := false
    errorListeners := false }

/-- State of a JSONPollingTransport object after a successful construction:
the inherited polling state plus the script callback head and foot built
from the j query parameter. -/
structure JSONPState where
  base : PollingState
  head : String
  foot : String
  deriving Repr, DecidableEq

/-- JSONPollingTransport.__init__: runs the inherited constructor, which
sets `self.request = None`, then evaluates `self.request.query` on that
None reference — an AttributeError on every construction.  The some branch
records what the code would do if a request were bound: keep only the
digits of the j parameter and wrap them in the callback head.  `queryJ`
models the external request object query dict lookup. -/
def JSONPollingTransport.init (cfg : TransportConfig) (queryJ : Nat → String) :
    Except PyError JSONPState :=
  let s := PollingTransport.init cfg
  match s.pollRequest with
  | none => Except.error (PyError.attributeError "NoneType object has no attribute query")
  | some r =>
    let cn := String.mk (((queryJ r).toList.filter Char.isDigit))
    Except.ok { base := s, head := "___eio[" ++ cn ++ "](", foot := ");" }

/-- Inbound body of a data exchange: text or a bytearray (binary mode). -/
inductive PyData
  | str (s : String)
  | bytes (b : List Nat)
  deriving Repr, DecidableEq

/-- Modelled from the Python standard library: urlparse.parse_qsl returns a
LIST of name and value pairs, not a dict.  Percent decoding is omitted
here because the result is only ever subscripted with a string key, which
raises before any pair is inspected. -/
def parse_qsl (s : String) : List (String × String) :=
  ((s.splitOn "&").filter (fun kv => kv ≠ "")).map fun kv =>
    match kv.splitOn "=" with
    | [] => ("", "")
    | [k] => (k, "")
    | k :: v :: _ => (k, v)

/-- Subscripting a Python list with a string key, as in
`urlparse.parse_qsl(data)["d"]`: always a TypeError, whatever the list
holds.  The Empty result type records that this expression never produces
a value. -/
def pyListSubscriptStr (xs : List (String × String)) (key : String) :
    Except PyError Empty :=
  Except.error (PyError.typeError "list indices must be integers, not str")

/-- JSONPollingTransport.on_data: the first statement subscripts the pair
list returned by parse_qsl with the string d, so every call raises
TypeError before the text-type check and before the base decode path can
run.  A bytearray body reaches the same list subscript. -/
def JSONPollingTransport.onData (data : PyData) : Except PyError (List Effect) :=
  match data with
  | PyData.str t =>
    match pyListSubscriptStr (parse_qsl t) "d" with
    | Except.error e => Except.error e
  | PyData.bytes b =>
    match pyListSubscriptStr (parse_qsl (String.mk (b.map Char.ofNat))) "d" with
    | Except.error e => Except.error e

/-- One result of `self.websocket.receive()`: a frame (None means
end-of-stream) or a raised WebSocketError. -/
inductive RecvResult
  | val (m : Option String)
  | err (e : String)
  deriving Repr, DecidableEq

/-- Observable side effects of the websocket transport code. -/
inductive WsEffect
  | errorEv (d : String)
  | onDataCall (m : String)
  | closeInvoked
  | endResponse (status : Nat) (body : String)
  | caughtAlreadyEnded
  | frame (p : Packet) (supportsBinary : Bool)
  deriving Repr, DecidableEq

/-- The Python local variable `message` of the read loop: unbound before
the first successful receive, bound to the last received value after. -/
inductive PyVar
  | unbound
  | bound (v : Option String)
  deriving Repr, DecidableEq

/-- How the read loop ends for the given finite prefix of receive results:
it broke out normally, it crashed with a NameError, or it is still blocked
waiting on the next receive. -/
inductive LoopEnd
  | finished
  | nameError
  | blocked
  deriving Repr, DecidableEq

/-- Code after the read loop breaks: `self.close()` (recorded as a marker)
followed by `request.response.end(200, ...)` inside a try that discards
Response.ResponseAlreadyEnded. -/
def afterLoop (responseAlreadyEnded : Bool) : List WsEffect :=
  WsEffect.closeInvoked ::
    (if responseAlreadyEnded then [WsEffect.caughtAlreadyEnded]
     else [WsEffect.endResponse 200 "The websocket closed"])

/-- The read_from_ws loop of WebsocketTransport.process_request, run over a
finite prefix of receive results.  The try block only wraps the receive
call, so after a WebSocketError the loop body continues with `message`
still holding its previous value: on the very first iteration the variable
is unbound and the None check raises NameError; otherwise the stale
previous frame is handed to on_data a second time. -/
def readFromWs (errorListeners responseAlreadyEnded : Bool) :
    PyVar → List RecvResult → List WsEffect × LoopEnd
  | _, [] => ([], LoopEnd.blocked)
  | _, RecvResult.val none :: _ => (afterLoop responseAlreadyEnded, LoopEnd.finished)
  | _, RecvResult.val (some d) :: rs =>
    let o := readFromWs errorListeners responseAlreadyEnded (PyVar.bound (some d)) rs
    (WsEffect.onDataCall d :: o.1, o.2)
  | m, RecvResult.err e :: rs =>
    let errEffs := if errorListeners then [WsEffect.errorEv e] else []
    match m with
    | PyVar.unbound => (errEffs, LoopEnd.nameError)
    | PyVar.bound none => (errEffs ++ afterLoop responseAlreadyEnded, LoopEnd.finished)
    | PyVar.bound (some d) =>
      let o := readFromWs errorListeners responseAlreadyEnded (PyVar.bound (some d)) rs
      (errEffs ++ WsEffect.onDataCall d :: o.1, o.2)

/-- State of a WebsocketTransport object as read and written by `send`. -/
structure WsState where
  writable : Bool
  supportsBinary : Bool
  errorListeners : Bool
  deriving Repr, DecidableEq

/-- WebsocketTransport.send: for each packet in order, encode it and write
it as one frame over the external socket, clearing writable for the
duration of the individual frame send and restoring it right after; a
WebSocketError raised by the socket is routed to on_error and the loop
continues with the next packet.  The external socket outcome per packet is
an Option String: none for a delivered frame, some message for a raised
WebSocketError. -/
def WebsocketTransport.send (s : WsState) :
    List (Packet × Option String) → WsState × List WsEffect
  | [] => (s, [])
  | (p, outcome) :: rest =>
    let s1 : WsState := { s with writable := false }
    let effs :=
      match outcome with
      | none => [WsEffect.frame p s1.supportsBinary]
      | some m => if s1.errorListeners then [WsEffect.errorEv m] else []
    let s2 : WsState := { s1 with writable := true }
    let o := WebsocketTransport.send s2 rest
    (o.1, effs ++ o.2)

/-- Packets carried by packet events, in order. -/
def packetEvents (effs : List Effect) : List Packet :=
  effs.filterMap fun e =>
    match e with
    | Effect.packetEv p => some p
    | _ => none

/-- Demonstration state: a polling transport with poll exchange 1 bound. -/
def boundState : PollingState :=
  ⟨"open", true, false, true, some 1, none, false, true⟩

/-- Demonstration state: a fresh polling transport in the opening state. -/
def openingState : PollingState :=
  ⟨"opening", false, false, true, some 1, none, true, false⟩

/-- Demonstration state: a polling transport whose on_close already fired. -/
def closedState : PollingState :=
  ⟨"closed", false, false, true, some 1, none, true, false⟩

/-- Claim C1: on a second, different GET poll exchange the code emits the
error event but then runs `self.request.response.end(500)` on the exchange
that is already bound: exchange 1, the existing poll, gets the 500 and the
new exchange 2 is never answered; the binding itself is unchanged.  The
claim says the NEW exchange receives the 500 and the existing response is
left alone. -/
theorem claim_C1_overlap_ends_existing_response :
    PollingTransport.onPollRequest boundState 2 =
      ⟨boundState,
       [Effect.errorEv "overlap from client", Effect.endResponse 1 500 none],
       none⟩ :=
  rfl

/-- Claim C2: in the websocket read loop the try block only wraps the
receive call, so after a receive error the loop body runs with the stale
previous value of `message`: the first conjunct shows frame a delivered
once but handed to on_data twice (once after the error), the second shows
a NameError when the very first receive raises, and the third shows the
already-ended response being caught and discarded after end-of-stream. -/
theorem claim_C2_receive_error_redelivers :
    (readFromWs true false PyVar.unbound
        [RecvResult.val (some "a"), RecvResult.err "boom", RecvResult.val none]).1
      = [WsEffect.onDataCall "a", WsEffect.errorEv "boom", WsEffect.onDataCall "a",
         WsEffect.closeInvoked, WsEffect.endResponse 200 "The websocket closed"]
    ∧ readFromWs true false PyVar.unbound [RecvResult.err "boom"]
      = ([WsEffect.errorEv "boom"], LoopEnd.nameError)
    ∧ (readFromWs true true PyVar.unbound [RecvResult.val none]).1
      = [WsEffect.closeInvoked, WsEffect.caughtAlreadyEnded] :=
  ⟨rfl, rfl, rfl⟩

/-- Demonstration state: should_close pending, nothing bound, writable
false. -/
def shouldCloseState : PollingState :=
  ⟨"open", false, true, true, none, none, false, true⟩

/-- Demonstration state: should_close pending on a bound writable
transport. -/
def shouldCloseBound : PollingState :=
  ⟨"open", true, true, true, some 1, none, false, true⟩

/-- Claim C6: `packets.push(...)` is not Python — lists have no push
method — so `send` with should_close set raises AttributeError before
appending a close packet, before clearing the flag and before writing
anything; a poll binding while should_close is true likewise raises out of
the triggered empty send, with should_close still true and no write
effect. -/
theorem claim_C6_send_push_raises :
    PollingTransport.send shouldCloseBound [{ ptype := "noop" }]
      = ⟨shouldCloseBound, [],
         some (PyError.attributeError "list object has no attribute push")⟩
    ∧ PollingTransport.onPollRequest shouldCloseState 3
      = ⟨{ shouldCloseState with pollRequest := some 3, writable := true },
         [Effect.registerPostEnd 3, Effect.registerPreEnd 3, Effect.drainEv],
         some (PyError.attributeError "list object has no attribute push")⟩ :=
  ⟨rfl, rfl⟩

/-- Demonstration state for claim C7: writable while should_close is
already pending, with data exchange 5 bound.  Reachable: a close() during
the response-end window sets should_close; the next poll binding sets
writable and raises out of the triggered empty send, leaving both flags
true; a later close() then enters do_close in this state. -/
def writableShouldClose : PollingState :=
  ⟨"closing", true, true, true, some 1, some 5, true, false⟩

/-- Claim C7 counterexample: in a writable state with should_close already
pending, do_close aborts the data exchange but then the normal send path
raises AttributeError at packets.push before anything is written — no
close packet is sent, contrary to the claim that a writable do_close sends
exactly one close packet. -/
theorem claim_C7_counterexample :
    PollingTransport.doClose writableShouldClose
      = ⟨writableShouldClose, [Effect.abortReq 5],
         some (PyError.attributeError "list object has no attribute push")⟩ :=
  rfl

/-- Claim C7 amended: do_close aborts the bound data exchange when one is
bound; when not writable it sets should_close; when writable it invokes
the normal send path with exactly one close packet, which writes that
packet when should_close is clear but raises AttributeError (the push bug
of claim C6) and writes nothing when should_close is already set. -/
theorem claim_C7_doClose_amended (s : PollingState) :
    PollingTransport.doClose s =
      ⟨(if s.writable then s else { s with shouldClose := true }),
       (match s.dataRequest with
        | some r => [Effect.abortReq r]
        | none => []) ++
         (if s.writable then
            (if s.shouldClose then []
             else [Effect.write [{ ptype := "close" }] s.supportsBinary])
          else []),
       if s.writable && s.shouldClose then
         some (PyError.attributeError "list object has no attribute push")
       else none⟩ := by
  cases hw : s.writable <;> cases hc : s.shouldClose <;> cases hd : s.dataRequest <;>
    simp [PollingTransport.doClose, PollingTransport.send, hw, hc, hd]

/-- Claim C9: JSONPollingTransport.on_data subscripts the pair list
returned by parse_qsl with the string d, a TypeError on every call, text
or binary: the designated data field is never extracted, the base decode
path never runs, and a non-text payload raises instead of being silently
ignored. -/
theorem claim_C9_jsonp_onData_raises :
    JSONPollingTransport.onData (PyData.str "d=hello")
      = Except.error (PyError.typeError "list indices must be integers, not str")
    ∧ JSONPollingTransport.onData (PyData.bytes [100, 61, 104])
      = Except.error (PyError.typeError "list indices must be integers, not str") :=
  ⟨rfl, rfl⟩

/-- Claim C10: the JSONP constructor always raises: the inherited
constructor leaves `self.request` as None and the next line reads
`self.request.query` on it, an AttributeError for every config and every
query content, so no script-injection transport is ever constructed. -/
theorem claim_C10_jsonp_init_raises (cfg : TransportConfig) (queryJ : Nat → String) :
    JSONPollingTransport.init cfg queryJ
      = Except.error (PyError.attributeError "NoneType object has no attribute query") :=
  rfl

/-- Claim C3 counterexample: after on_close has fired once (ready_state is
closed), a second on_close emits the close event again — there is no guard
in the code, so the second invocation is not a no-op and the close event
is duplicated, contrary to the claim. -/
theorem claim_C3_counterexample :
    ((BaseTransport.onClose openingState).1.readyState = "closed")
    ∧ (BaseTransport.onClose (BaseTransport.onClose openingState).1).2
        = [Effect.closeEv] :=
  ⟨rfl, rfl⟩

/-- Claim C3 amended: on an already closed transport a second on_close
leaves the state unchanged (ready_state is rewritten with the same value)
but it does emit a duplicate close event: the invocation is free of state
change yet is not a no-op. -/
theorem claim_C3_amended_second_onClose (s : PollingState)
    (h : s.readyState = "closed") :
    (BaseTransport.onClose s).1 = s ∧ (BaseTransport.onClose s).2 = [Effect.closeEv] := by
  refine ⟨?_, rfl⟩
  cases s
  simp_all [BaseTransport.onClose]

/-- Witness for the amended claim C3 at a concrete closed state. -/
theorem claim_C3_amended_second_onClose_witness :
    closedState.readyState = "closed"
    ∧ ((BaseTransport.onClose closedState).1 = closedState
      ∧ (BaseTransport.onClose closedState).2 = [Effect.closeEv]) :=
  ⟨rfl, claim_C3_amended_second_onClose closedState rfl⟩

/-- Claim C4 counterexample: the operation trace for on_close followed by
close shows ready_state moving backward from closed to closing, because
close unconditionally assigns closing; so ready_state is not monotone and
closed is not final under the operations of this file. -/
theorem claim_C4_counterexample :
    readyTrace openingState [Op.onClose] = ["closed"]
    ∧ readyTrace openingState [Op.onClose, Op.close] = ["closed", "closing"] :=
  ⟨rfl, rfl⟩

/-- Helper: do_close never changes ready_state (polling do_close does not
call on_close). -/
theorem doClose_readyState (s : PollingState) :
    (PollingTransport.doClose s).state.readyState = s.readyState := by
  cases hw : s.writable <;> cases hd : s.dataRequest <;> cases hc : s.shouldClose <;>
    simp [PollingTransport.doClose, PollingTransport.send, hw, hd, hc]

/-- Helper: close always leaves ready_state at closing, whatever state it
started from and whether or not it raised. -/
theorem close_readyState (s : PollingState) :
    (PollingTransport.close s).state.readyState = "closing" := by
  cases hp : s.pollRequest <;> cases hs : s.pollResponseIsSet <;>
    simp [PollingTransport.close, hp, hs, doClose_readyState]

/-- Helper: the rank of any ready_state string is at most two. -/
theorem stateRank_le_two (x : String) : stateRank x ≤ 2 := by
  unfold stateRank
  split <;> omega

/-- Helper: the rank of the closing state. -/
theorem stateRank_closing : stateRank "closing" = 1 := by decide

/-- Helper: the rank of the opening state. -/
theorem stateRank_opening : stateRank "opening" = 0 := by decide

/-- Helper: a trace made only of on_close operations is a chain of closed
states, so it is monotone from any starting state. -/
theorem chain_allOnClose : ∀ (ops : List Op) (s : PollingState),
    ops.all (fun o => o = Op.onClose) = true →
    List.Chain' (fun a b => stateRank a ≤ stateRank b)
      (s.readyState :: readyTrace s ops) := by
  intro ops
  induction ops with
  | nil => intro s _; simp [readyTrace]
  | cons o ops ih =>
    intro s h
    simp only [List.all_cons, Bool.and_eq_true, decide_eq_true_eq] at h
    obtain ⟨ho, hops⟩ := h
    subst ho
    have htail := ih ((BaseTransport.onClose s).1) (by simpa using hops)
    simp only [readyTrace, applyOp]
    exact List.chain'_cons.mpr ⟨stateRank_le_two _, htail⟩

/-- Helper: for a sequence in which close never follows on_close, the
ready_state trace is monotone in rank, starting from any not-yet-closed
state. -/
theorem chain_noCloseAfter : ∀ (ops : List Op) (s : PollingState),
    noCloseAfterOnClose ops = true → stateRank s.readyState ≤ 1 →
    List.Chain' (fun a b => stateRank a ≤ stateRank b)
      (s.readyState :: readyTrace s ops) := by
  intro ops
  induction ops with
  | nil => intro s _ _; simp [readyTrace]
  | cons o ops ih =>
    intro s h hrank
    cases o with
    | close =>
      simp only [noCloseAfterOnClose] at h
      have hready := close_readyState s
      have htail := ih ((PollingTransport.close s).state) h
        (by rw [hready, stateRank_closing])
      simp only [readyTrace, applyOp]
      rw [hready] at htail ⊢
      exact List.chain'_cons.mpr ⟨by rw [stateRank_closing]; exact hrank, htail⟩
    | onClose =>
      simp only [noCloseAfterOnClose] at h
      have htail := chain_allOnClose ops ((BaseTransport.onClose s).1) h
      simp only [readyTrace, applyOp]
      exact List.chain'_cons.mpr ⟨stateRank_le_two _, htail⟩

/-- Claim C4 amended: starting from the opening state, ready_state only
advances along opening, closing, closed as long as no close or on_close
operation follows an on_close; close unconditionally assigns closing, so
(as the counterexample shows) a close invoked after on_close moves
ready_state backward from closed to closing. -/
theorem claim_C4_amended_monotone (s : PollingState) (ops : List Op)
    (h1 : s.readyState = "opening") (h2 : noCloseAfterOnClose ops = true) :
    List.Chain' (fun a b => stateRank a ≤ stateRank b)
      (s.readyState :: readyTrace s ops) :=
  chain_noCloseAfter ops s h2 (by rw [h1, stateRank_opening]; omega)

/-- Witness for the amended claim C4 at a concrete opening state and a
close-then-on-close sequence. -/
theorem claim_C4_amended_monotone_witness :
    openingState.readyState = "opening"
    ∧ noCloseAfterOnClose [Op.close, Op.onClose] = true
    ∧ List.Chain' (fun a b => stateRank a ≤ stateRank b)
        (openingState.readyState :: readyTrace openingState [Op.close, Op.onClose]) :=
  ⟨rfl, rfl, claim_C4_amended_monotone openingState [Op.close, Op.onClose] rfl rfl⟩

/-- Helper: the effects of close (and of the do_close and send it calls)
contain no packet event and no closeInvoked marker, so the packets emitted
by on_data are exactly the ones its own loop routes to on_packet. -/
theorem close_effects_packet_free (s : PollingState) :
    packetEvents (PollingTransport.close s).effects = []
    ∧ Effect.closeInvoked ∉ (PollingTransport.close s).effects := by
  cases hp : s.pollRequest <;> cases hs : s.pollResponseIsSet <;>
    cases hw : s.writable <;> cases hd : s.dataRequest <;> cases hc : s.shouldClose <;>
      simp [PollingTransport.close, PollingTransport.doClose, PollingTransport.send,
        packetEvents, hp, hs, hw, hd, hc]

/-- Claim C5: for every decoded payload, the packets emitted as packet
events are exactly the prefix before the first close packet, in decode
order (so the close packet itself is never emitted and nothing after it is
processed), and close is invoked exactly when the payload contains a close
packet. -/
theorem claim_C5_onData_routing (s : PollingState) (payload : List Packet) :
    packetEvents (PollingTransport.onData s payload).effects
        = payload.takeWhile (fun p => p.ptype != "close")
    ∧ ((Effect.closeInvoked ∈ (PollingTransport.onData s payload).effects)
        ↔ payload.any (fun p => p.ptype == "close") = true) := by
  induction payload with
  | nil => simp [PollingTransport.onData, PollingTransport.onDataLoop, packetEvents]
  | cons p ps ih =>
    by_cases hpc : p.ptype = "close"
    · have hfree := close_effects_packet_free s
      constructor
      · simp [PollingTransport.onData, PollingTransport.onDataLoop, hpc,
          packetEvents, hfree.1]
        simpa [packetEvents] using hfree.1
      · simp [PollingTransport.onData, PollingTransport.onDataLoop, hpc]
    · constructor
      · simpa [PollingTransport.onData, PollingTransport.onDataLoop, hpc,
          packetEvents] using ih.1
      · simpa [PollingTransport.onData, PollingTransport.onDataLoop, hpc] using ih.2

/-- Claim C8: the websocket send writes each packet of the batch as its own
frame in input order; a frame whose socket send raises produces one error
event instead of a frame and the remaining packets are still sent; after a
nonempty batch writable is true (an empty batch leaves it unchanged). -/
theorem claim_C8_ws_send_batch (s : WsState) (frames : List (Packet × Option String))
    (h : s.errorListeners = true) :
    (WebsocketTransport.send s frames).2
        = frames.flatMap (fun f =>
            match f.2 with
            | none => [WsEffect.frame f.1 s.supportsBinary]
            | some m => [WsEffect.errorEv m])
    ∧ (WebsocketTransport.send s frames).1.writable
        = (if frames.isEmpty then s.writable else true) := by
  induction frames generalizing s with
  | nil => simp [WebsocketTransport.send]
  | cons f rest ih =>
    obtain ⟨p, outcome⟩ := f
    have hrec := ih ({ s with writable := true } : WsState) h
    cases outcome with
    | none =>
      refine ⟨?_, ?_⟩
      · simpa [WebsocketTransport.send] using hrec.1
      · simp [WebsocketTransport.send, hrec.2]
    | some m =>
      refine ⟨?_, ?_⟩
      · simpa [WebsocketTransport.send, h] using hrec.1
      · simp [WebsocketTransport.send, hrec.2]

/-- Demonstration websocket state: writable, binary-capable, with an error
listener. -/
def wsDemoState : WsState := ⟨true, true, true⟩

/-- Demonstration batch: packet A delivered, packet B rejected by the
socket. -/
def wsDemoBatch : List (Packet × Option String) :=
  [({ ptype := "message", payload := "A" }, none),
   ({ ptype := "message", payload := "B" }, some "boom")]

/-- Witness for claim C8 at a concrete two-packet batch with a failing
second frame. -/
theorem claim_C8_ws_send_batch_witness :
    wsDemoState.errorListeners = true
    ∧ ((WebsocketTransport.send wsDemoState wsDemoBatch).2
        = wsDemoBatch.flatMap (fun f =>
            match f.2 with
            | none => [WsEffect.frame f.1 wsDemoState.supportsBinary]
            | some m => [WsEffect.errorEv m])
      ∧ (WebsocketTransport.send wsDemoState wsDemoBatch).1.writable
        = (if wsDemoBatch.isEmpty then wsDemoState.writable else true)) :=
  ⟨rfl, claim_C8_ws_send_batch wsDemoState wsDemoBatch rfl⟩

end Transports
